import Mathlib

/-!
Verification of the access-log middleware in `src/log/log.go`.

The Go package defines a capturing `Writer` (a chained `io.Writer` keeping the
response body in memory), its `Write` and `Close` methods, and the
`Middleware` / `CommonLogMiddleware` / `CombinedLogMiddleware` constructors.
The embedding below translates those functions directly; Go's mutable state
(the sink's internal state, the process-wide access log) is threaded
explicitly, and `time.Now()` is modelled by an explicit ambient clock value
passed where the Go code reads the clock.

The framework types `goyave.Response`, `goyave.Request`, `goyave.Handler`,
`goyave.Middleware` and the process-wide `goyave.AccessLogger` belong to this
repository but are not under `src/`; they are modelled from the spec, each
with a doc comment saying so.
-/

namespace GoyaveLog

/-- A Go byte slice, as a list of byte values. -/
abbrev Bytes := List Nat

/-- A Go `error` value: `none` is Go's nil error. -/
abbrev GoErr := Option String

/-- A Go `io.Writer` sink value, modelled by its `Write` method as a
transformer of an abstract sink state `σ` returning the new state, the byte
count and the error, together with its optional `Close` method: `closeM` is
`some` exactly when the dynamic type of the sink implements `io.Closer`
(the `w.writer.(io.Closer)` type assertion in `Writer.Close` succeeds). -/
structure Sink (σ : Type) where
  writeM : σ → Bytes → σ × Nat × GoErr
  closeM : Option (σ → σ × GoErr)

/-- The `Formatter` type of log.go: a function that builds a log entry from
the time, the response descriptor, the request descriptor and the body
bytes. `Res` and `Req` are the opaque response and request descriptors. -/
abbrev Formatter (Res Req : Type) := Nat → Res → Req → Bytes → String

/-- The `Writer` struct of log.go: chained writer keeping the response body
in memory, holding the captured start time `now`, the request, the wrapped
sink `writer`, the response, the accumulated `body` and the `formatter`. -/
structure Writer (Res Req σ : Type) where
  now : Nat
  request : Req
  writer : Sink σ
  response : Res
  body : Bytes
  formatter : Formatter Res Req

/-- Modelled from the spec: the external `goyave.Response` descriptor, "a
Response descriptor exposing an output sink". `data` is the opaque response
data that formatters observe, `sink` is the output sink returned by
`response.Writer()` before any capturing writer is installed, and
`installed` is the capturing writer installed by `response.SetWriter`, when
one has been installed. -/
structure GResponse (Res Req σ : Type) where
  data : Res
  sink : Sink σ
  installed : Option (Writer Res Req σ)

variable {Res Req σ : Type}

/-- `NewWriter` of log.go: create a new log `Writer`, capturing the current
time (the `now` argument is the ambient value of `time.Now()` at the call),
the request, the response's current output sink, and the response itself,
with the given formatter; the body starts as Go's nil slice. -/
def NewWriter (now : Nat) (response : GResponse Res Req σ) (request : Req)
    (formatter : Formatter Res Req) : Writer Res Req σ :=
  { now := now
    request := request
    writer := response.sink
    response := response.data
    body := []
    formatter := formatter }

/-- `Writer.Write` of log.go: append `b` to the in-memory body, then forward
`b` to the wrapped sink's `Write`, returning the sink's byte count and
error. The sink state is threaded explicitly. -/
def Writer.Write (w : Writer Res Req σ) (s : σ) (b : Bytes) :
    Writer Res Req σ × σ × Nat × GoErr :=
  let w' := { w with body := w.body ++ b }
  let r := w.writer.writeM s b
  (w', r.1, r.2.1, r.2.2)

/-- `Writer.Close` of log.go: print the formatter's line (applied to the
captured time, the response, the request and the buffered body) to the
process-wide access logger — modelled from the spec as a list of emitted
lines, `Println` appending one line — then forward the close to the wrapped
sink when its dynamic type implements `io.Closer`, returning that error
verbatim, and return nil otherwise. -/
def Writer.Close (w : Writer Res Req σ) (s : σ) (log : List String) :
    List String × σ × GoErr :=
  let log' := log ++ [w.formatter w.now w.response w.request w.body]
  match w.writer.closeM with
  | some cl =>
    let r := cl s
    (log', r.1, r.2)
  | none => (log', s, none)

/-- Modelled from the spec: the per-request mutable state this component can
observe: the response descriptor (with its writer slot), the request, the
sink's state, the process-wide access log, and the ambient clock read by
`time.Now()`. -/
structure ReqCtx (Res Req σ : Type) where
  response : GResponse Res Req σ
  request : Req
  sinkState : σ
  logLines : List String
  clock : Nat

/-- Modelled from the spec: `goyave.Handler`, a request handler, as a
transformer of the request context. -/
abbrev Handler (Res Req σ : Type) := ReqCtx Res Req σ → ReqCtx Res Req σ

/-- Modelled from the spec: `goyave.Middleware`, a decorator of handlers. -/
abbrev GoyaveMiddleware (Res Req σ : Type) := Handler Res Req σ → Handler Res Req σ

/-- Modelled from the spec: `goyave.Response.SetWriter`, installing `w` as the
response's active writer. -/
def GResponse.SetWriter (r : GResponse Res Req σ) (w : Writer Res Req σ) :
    GResponse Res Req σ :=
  { r with installed := some w }

/-- `Middleware` of log.go: given a formatter, the decorator that, per
request, constructs a new capturing `Writer` around the current response
sink at the current time, installs it as the response's active writer via
`SetWriter`, then invokes the next handler. -/
def Middleware (formatter : Formatter Res Req) : GoyaveMiddleware Res Req σ :=
  fun next ctx =>
    let logWriter := NewWriter ctx.clock ctx.response ctx.request formatter
    next { ctx with response := ctx.response.SetWriter logWriter }

/-- Modelled from the spec: the common log format formatter (`"Common/Combined
log format: two standard textual conventions for HTTP access log lines"`).
Its body lives outside `src/`; only its identity matters to the claims. -/
def CommonLogFormatter : Formatter Res Req :=
  fun now _ _ body => "common " ++ toString now ++ " " ++ toString body.length

/-- Modelled from the spec: the combined log format formatter, likewise. -/
def CombinedLogFormatter : Formatter Res Req :=
  fun now _ _ body => "combined " ++ toString now ++ " " ++ toString body.length

/-- `CommonLogMiddleware` of log.go: `Middleware` applied to the common log
format formatter. -/
def CommonLogMiddleware : GoyaveMiddleware Res Req σ :=
  Middleware CommonLogFormatter

/-- `CombinedLogMiddleware` of log.go: `Middleware` applied to the combined
log format formatter. -/
def CombinedLogMiddleware : GoyaveMiddleware Res Req σ :=
  Middleware CombinedLogFormatter

/-- Run a sequence of `Writer.Write` calls, threading the writer and the sink
state and discarding the returned byte counts and errors. -/
def writeAll : Writer Res Req σ → σ → List Bytes → Writer Res Req σ × σ
  | w, s, [] => (w, s)
  | w, s, b :: bs =>
    let r := w.Write s b
    writeAll r.1 r.2.1 bs

/-- A complete request lifecycle of a `Writer` as the claims describe it: a
sequence of `Write` calls followed by one `Close`, starting from
`NewWriter`, returning the access log, sink state and close error. -/
def lifecycle (now : Nat) (resp : GResponse Res Req σ) (req : Req)
    (f : Formatter Res Req) (bs : List Bytes) (s : σ) (log : List String) :
    List String × σ × GoErr :=
  let p := writeAll (NewWriter now resp req f) s bs
  p.1.Close p.2 log

/-- Modelled from the spec: `response.Write` as handlers see it: the write
goes through the response's active writer — the installed capturing writer
when present, the raw sink otherwise. -/
def writeBody (ctx : ReqCtx Res Req σ) (b : Bytes) : ReqCtx Res Req σ :=
  match ctx.response.installed with
  | some w =>
    let r := w.Write ctx.sinkState b
    { ctx with
        response := { ctx.response with installed := some r.1 }
        sinkState := r.2.1 }
  | none =>
    let r := ctx.response.sink.writeM ctx.sinkState b
    { ctx with sinkState := r.1 }

/-- Modelled from the spec: a handler whose visible effect is to write the
given body chunks, in order, to the response. -/
def writesHandler (ws : List Bytes) : Handler Res Req σ :=
  fun ctx => ws.foldl writeBody ctx

/-- Modelled from the spec: the framework closes the response's active writer
at the end of the request lifecycle, after all body writes. -/
def closeActive (ctx : ReqCtx Res Req σ) : ReqCtx Res Req σ :=
  match ctx.response.installed with
  | some w =>
    let r := w.Close ctx.sinkState ctx.logLines
    { ctx with logLines := r.1, sinkState := r.2.1 }
  | none => ctx

/-- Modelled from the spec: one complete request: run the middleware-wrapped
handler, then close the response's active writer. -/
def processRequest (m : GoyaveMiddleware Res Req σ) (h : Handler Res Req σ)
    (ctx : ReqCtx Res Req σ) : ReqCtx Res Req σ :=
  closeActive (m h ctx)

/-- Modelled from the spec: a fresh per-request context: no capturing writer
installed yet, the process-wide log holding `log`, the ambient clock at
`t`. -/
def freshCtx (d : Res) (snk : Sink σ) (req : Req) (s : σ) (log : List String)
    (t : Nat) : ReqCtx Res Req σ :=
  { response := { data := d, sink := snk, installed := none }
    request := req
    sinkState := s
    logLines := log
    clock := t }

/- ### Helper lemmas -/

theorem writeAll_body (w : Writer Res Req σ) (s : σ) (bs : List Bytes) :
    (writeAll w s bs).1.body = w.body ++ bs.flatten := by
  induction bs generalizing w s with
  | nil => simp [writeAll]
  | cons b bs ih => simp [writeAll, Writer.Write, ih]

theorem writeAll_now (w : Writer Res Req σ) (s : σ) (bs : List Bytes) :
    (writeAll w s bs).1.now = w.now := by
  induction bs generalizing w s with
  | nil => rfl
  | cons b bs ih => simpa [writeAll, Writer.Write] using ih _ _

theorem writeAll_request (w : Writer Res Req σ) (s : σ) (bs : List Bytes) :
    (writeAll w s bs).1.request = w.request := by
  induction bs generalizing w s with
  | nil => rfl
  | cons b bs ih => simpa [writeAll, Writer.Write] using ih _ _

theorem writeAll_response (w : Writer Res Req σ) (s : σ) (bs : List Bytes) :
    (writeAll w s bs).1.response = w.response := by
  induction bs generalizing w s with
  | nil => rfl
  | cons b bs ih => simpa [writeAll, Writer.Write] using ih _ _

theorem writeAll_writer (w : Writer Res Req σ) (s : σ) (bs : List Bytes) :
    (writeAll w s bs).1.writer = w.writer := by
  induction bs generalizing w s with
  | nil => rfl
  | cons b bs ih => simpa [writeAll, Writer.Write] using ih _ _

theorem writeAll_formatter (w : Writer Res Req σ) (s : σ) (bs : List Bytes) :
    (writeAll w s bs).1.formatter = w.formatter := by
  induction bs generalizing w s with
  | nil => rfl
  | cons b bs ih => simpa [writeAll, Writer.Write] using ih _ _

theorem close_log (w : Writer Res Req σ) (s : σ) (log : List String) :
    (w.Close s log).1
      = log ++ [w.formatter w.now w.response w.request w.body] := by
  cases hc : w.writer.closeM <;> simp [Writer.Close, hc]

theorem foldl_writeBody (w : Writer Res Req σ) (d : Res) (snk : Sink σ)
    (req : Req) (s : σ) (log : List String) (t : Nat) (ws : List Bytes) :
    List.foldl writeBody ⟨⟨d, snk, some w⟩, req, s, log, t⟩ ws
      = ⟨⟨d, snk, some (writeAll w s ws).1⟩, req, (writeAll w s ws).2,
          log, t⟩ := by
  induction ws generalizing w s with
  | nil => rfl
  | cons b bs ih =>
    rw [List.foldl_cons]
    simpa [writeBody, writeAll] using ih (w.Write s b).1 (w.Write s b).2.1

theorem processRequest_log (f : Formatter Res Req) (ws : List Bytes) (d : Res)
    (snk : Sink σ) (req : Req) (s : σ) (log : List String) (t : Nat) :
    (processRequest (Middleware f) (writesHandler ws)
        (freshCtx d snk req s log t)).logLines
      = log ++ [f t d req ws.flatten] := by
  show (closeActive (List.foldl writeBody
      ⟨⟨d, snk, some (NewWriter t ⟨d, snk, none⟩ req f)⟩, req, s, log, t⟩
      ws)).logLines = _
  rw [foldl_writeBody]
  simp [closeActive, close_log, writeAll_now, writeAll_request,
    writeAll_response, writeAll_formatter, writeAll_body, NewWriter]

/- ### Concrete data for witnesses -/

/-- A concrete sink whose dynamic type does not implement `io.Closer`. -/
def sinkNoClose : Sink Nat where
  writeM := fun s b => (s + b.length, b.length, none)
  closeM := none

/-- A concrete sink whose dynamic type implements `io.Closer` and whose close
fails. -/
def sinkWithClose : Sink Nat where
  writeM := fun s b => (s + b.length, b.length, none)
  closeM := some fun s => (s + 1, some "close failed")

/-- A concrete capturing writer over `sinkNoClose`. -/
def wNoClose : Writer Nat Nat Nat :=
  { now := 5, request := 1, writer := sinkNoClose, response := 2
    body := [7, 8], formatter := fun _ _ _ _ => "line" }

/-- A concrete capturing writer over `sinkWithClose`. -/
def wWithClose : Writer Nat Nat Nat :=
  { now := 5, request := 1, writer := sinkWithClose, response := 2
    body := [7, 8], formatter := fun _ _ _ _ => "line" }

/- ### Claims -/

/-- Claim C1: each `Write` appends its argument to the internal body buffer,
and consequently, for every sequence of writes from a freshly constructed
writer, the body buffer equals the concatenation of the written slices in
order. -/
theorem c1_body_is_concat_of_writes (now : Nat) (resp : GResponse Res Req σ)
    (req : Req) (f : Formatter Res Req) (s : σ) (bs : List Bytes) :
    (∀ (w : Writer Res Req σ) (s₀ : σ) (b : Bytes),
        ((w.Write s₀ b).1).body = w.body ++ b)
    ∧ (writeAll (NewWriter now resp req f) s bs).1.body = bs.flatten := by
  refine ⟨fun w s₀ b => rfl, ?_⟩
  simp [writeAll_body, NewWriter]

/-- Claim C2: `Write` forwards exactly `b` to the underlying sink's write and
returns exactly the sink state, byte count and error that the sink's write
returns at that input — also when the sink's write fails, since the
equation holds for every sink result. -/
theorem c2_write_pass_through (w : Writer Res Req σ) (s : σ) (b : Bytes) :
    (w.Write s b).2 = w.writer.writeM s b := rfl

/-- Claim C3: in a complete lifecycle — any sequence of writes followed by one
`Close` — exactly one line is appended to the process-wide access log, at
close time, and it is the formatter applied to the captured timestamp, the
response, the request and the concatenation of everything written; `Write`
itself never touches the log (it does not act on the log at all in the
embedding, mirroring the Go method body). -/
theorem c3_formatter_once_at_close (now : Nat) (resp : GResponse Res Req σ)
    (req : Req) (f : Formatter Res Req) (bs : List Bytes) (s : σ)
    (log : List String) :
    (lifecycle now resp req f bs s log).1
      = log ++ [f now resp.data req bs.flatten] := by
  unfold lifecycle
  rw [close_log, writeAll_now, writeAll_request, writeAll_response,
    writeAll_formatter, writeAll_body]
  simp [NewWriter]

/-- Claim C4: when the underlying sink's dynamic type does not implement
`io.Closer`, `Close` returns the nil error. -/
theorem c4_close_without_closer_nil (w : Writer Res Req σ) (s : σ)
    (log : List String) (h : w.writer.closeM = none) :
    (w.Close s log).2.2 = none := by
  simp [Writer.Close, h]

/-- Witness for C4 at a concrete writer whose sink has no close method. -/
theorem c4_close_without_closer_nil_witness :
    wNoClose.writer.closeM = none
    ∧ (wNoClose.Close 0 []).2.2 = none :=
  ⟨rfl, c4_close_without_closer_nil wNoClose 0 [] rfl⟩

/-- Claim C5: when the underlying sink implements `io.Closer`, `Close`
forwards the close to the sink exactly once and returns the sink's
resulting state and error verbatim — the full result is the single
application `cl s`, so the error is neither swallowed nor altered and the
close is not retried. -/
theorem c5_close_forwards_error_verbatim (w : Writer Res Req σ) (s : σ)
    (log : List String) (cl : σ → σ × GoErr) (h : w.writer.closeM = some cl) :
    (w.Close s log).2 = cl s := by
  simp [Writer.Close, h]

/-- Witness for C5 at a concrete writer whose sink close fails. -/
theorem c5_close_forwards_error_verbatim_witness :
    wWithClose.writer.closeM = some (fun s => (s + 1, some "close failed"))
    ∧ (wWithClose.Close 0 []).2 = (1, some "close failed") :=
  ⟨rfl, c5_close_forwards_error_verbatim wWithClose 0 []
    (fun s => (s + 1, some "close failed")) rfl⟩

/-- Claim C6: `Middleware formatter` is the decorator that constructs a new
capturing writer around the current response sink at the current time,
installs it via `SetWriter`, and invokes the next handler (first
conjunct, for every handler and context); and since no state is retained
across requests, two sequential requests on fresh contexts — the second
starting from the log produced by the first — each yield exactly one
independent log line carrying their own clocks `t₁` and `t₂` (second
conjunct). -/
theorem c6_middleware_per_request (f : Formatter Res Req)
    (next : Handler Res Req σ) (ctx : ReqCtx Res Req σ)
    (d₁ d₂ : Res) (snk₁ snk₂ : Sink σ) (req₁ req₂ : Req) (s₁ s₂ : σ)
    (log : List String) (t₁ t₂ : Nat) (ws₁ ws₂ : List Bytes) :
    Middleware f next ctx
      = next { ctx with response :=
          ctx.response.SetWriter (NewWriter ctx.clock ctx.response ctx.request f) }
    ∧ (processRequest (Middleware f) (writesHandler ws₂)
        (freshCtx d₂ snk₂ req₂ s₂
          (processRequest (Middleware f) (writesHandler ws₁)
            (freshCtx d₁ snk₁ req₁ s₁ log t₁)).logLines t₂)).logLines
      = log ++ [f t₁ d₁ req₁ ws₁.flatten] ++ [f t₂ d₂ req₂ ws₂.flatten] := by
  refine ⟨rfl, ?_⟩
  rw [processRequest_log, processRequest_log]

/-- Claim C7: the start timestamp is captured once at `NewWriter`, every
`Write` leaves it unchanged, and the very value passed to the formatter at
`Close` is that original timestamp. -/
theorem c7_timestamp_captured_once (now : Nat) (resp : GResponse Res Req σ)
    (req : Req) (f : Formatter Res Req) (bs : List Bytes) (s s' : σ)
    (log : List String) :
    (NewWriter now resp req f).now = now
    ∧ (writeAll (NewWriter now resp req f) s bs).1.now = now
    ∧ ((writeAll (NewWriter now resp req f) s bs).1.Close s' log).1
      = log ++ [f now resp.data req
          (writeAll (NewWriter now resp req f) s bs).1.body] := by
  refine ⟨rfl, ?_, ?_⟩
  · rw [writeAll_now]; rfl
  · rw [close_log, writeAll_now, writeAll_request, writeAll_response,
      writeAll_formatter]
    rfl

/-- Claim C8: `CommonLogMiddleware` and `CombinedLogMiddleware` are exactly
`Middleware` applied to the common and combined formatters, both as
definitional equalities and pointwise on every handler and context. -/
theorem c8_preset_wrappers (next : Handler Res Req σ) (ctx : ReqCtx Res Req σ) :
    (CommonLogMiddleware : GoyaveMiddleware Res Req σ)
        = Middleware CommonLogFormatter
    ∧ (CombinedLogMiddleware : GoyaveMiddleware Res Req σ)
        = Middleware CombinedLogFormatter
    ∧ CommonLogMiddleware next ctx = Middleware CommonLogFormatter next ctx
    ∧ CombinedLogMiddleware next ctx = Middleware CombinedLogFormatter next ctx :=
  ⟨rfl, rfl, rfl, rfl⟩

/-- Claim C9: closing a freshly constructed writer with no intervening writes
is well defined: the formatter receives the empty (Go nil) body and exactly
one log line, its result at the empty body, is emitted. -/
theorem c9_close_without_writes (now : Nat) (resp : GResponse Res Req σ)
    (req : Req) (f : Formatter Res Req) (s : σ) (log : List String) :
    (NewWriter now resp req f).body = ([] : Bytes)
    ∧ ((NewWriter now resp req f).Close s log).1
      = log ++ [f now resp.data req []] := by
  exact ⟨rfl, close_log _ s log⟩

/-- Claim C10: `Write` modifies only the `body` field of the writer: the
timestamp, request, wrapped sink, response and formatter fields are all
unchanged, while the body becomes the old body with `b` appended. -/
theorem c10_write_frame (w : Writer Res Req σ) (s : σ) (b : Bytes) :
    ((w.Write s b).1).now = w.now
    ∧ ((w.Write s b).1).request = w.request
    ∧ ((w.Write s b).1).writer = w.writer
    ∧ ((w.Write s b).1).response = w.response
    ∧ ((w.Write s b).1).formatter = w.formatter
    ∧ ((w.Write s b).1).body = w.body ++ b :=
  ⟨rfl, rfl, rfl, rfl, rfl, rfl⟩

end GoyaveLog
